import Mathlib

/-!
Shallow embedding of the PelotonIQ monitoring engine.

Sources embedded:
- `src/monitoring/data-quality/data-quality-monitor.py` (class `DataQualityMonitor`):
  the six dimension evaluators, the statistical anomaly detector, the per-source
  aggregation of `assess_data_source`, the pass/fail check counting, and the
  alert decision function `_check_quality_alerts`.
- `src/monitoring/ai-model-monitoring/model-performance-tracker.py`
  (class `ModelPerformanceTracker`): the drift scorer `_calculate_drift_score`,
  the confidence-score selection of `evaluate_model_performance`, and the alert
  decision function `_check_alerts`.

Modelling conventions:
- Python floats are modelled as `ℚ`; the arithmetic the claims exercise (means,
  ratios, comparisons) is exact over the rationals.
- A pandas DataFrame is modelled column-major: a row count plus named columns of
  cells, where a cell is `Option ℚ` (`none` is a null/NaN entry).  Pandas
  comparisons involving NaN are false, which maps to `none` failing every
  comparison below.
- `scipy.stats.zscore` divides by the population standard deviation.  To stay in
  `ℚ` the comparison `|x - mean| / std > t` is encoded by squaring:
  for `t ≥ 0` it is equivalent to `(x - mean)^2 > t^2 * variance`, and for
  `t < 0` it always holds (when the variance is nonzero).  When the variance is
  zero the source's z-scores are NaN and every NaN comparison is false, so
  nothing is counted; this is the `variance = 0` branch.
- I/O, Prometheus metric emission, logging and persistence are side effects the
  pure results do not depend on and are not modelled.
- Exceptions caught at an evaluator boundary (`except Exception` returning
  `(0, [{'type': 'error', ...}])`) are modelled by `run_evaluator` acting on an
  `Except`-valued body.
-/

/-- A DataFrame cell: `none` models a null/NaN entry. -/
abbrev Cell := Option ℚ

/-- Column-major model of a pandas DataFrame: a row count and named columns. -/
structure Df where
  nrows : ℕ
  cols : List (String × List Cell)

/-- `df[c]` when the column exists. -/
def getColumn (df : Df) (c : String) : Option (List Cell) :=
  (df.cols.find? (fun p => p.1 == c)).map (fun p => p.2)

/-- `c in df.columns`. -/
def hasColumn (df : Df) (c : String) : Bool :=
  (getColumn df c).isSome

/-- `df[column].isnull().sum()`. -/
def nullCount (cells : List Cell) : ℕ :=
  cells.countP (fun x => x.isNone)

/-- `df[column].notna().sum()`. -/
def notNullCount (cells : List Cell) : ℕ :=
  cells.countP (fun x => x.isSome)

/-- `np.mean` of a list of rationals (callers guard the empty list as the source does). -/
def meanQ (l : List ℚ) : ℚ :=
  l.sum / l.length

/-- `d.get(k, default)` for the threshold dictionaries. -/
def lookupD (th : List (String × ℚ)) (k : String) (d : ℚ) : ℚ :=
  match th.find? (fun p => p.1 == k) with
  | some p => p.2
  | none => d

/-- One entry of an `issues` list.  The source builds dicts whose keys vary by
issue kind; absent keys are `none`.  Human-readable `description` strings are
kept schematic (their interpolated number formatting is not modelled). -/
structure Issue where
  type : String
  severity : Option String := none
  column : Option String := none
  columns : Option (List String) := none
  rule : Option String := none
  score : Option ℚ := none
  description : String := ""
deriving DecidableEq

/-- One entry of `validation_rules[column]`: the optional range bounds, the
compiled regex (abstracted as a predicate on the cell's string rendering, as in
`df[column].astype(str).str.match(pattern)`), and the allowed-values list. -/
structure ColumnRules where
  min_value : Option ℚ := none
  max_value : Option ℚ := none
  pattern : Option (Cell → Bool) := none
  allowed_values : Option (List ℚ) := none

/-- One entry of `consistency_rules` (the `cross_column` shape). -/
structure ConsistencyRule where
  type : String
  column1 : String
  column2 : String
  operator : String

/-- The `timeliness_rules` dict and its defaulted keys. -/
structure TimelinessRules where
  timestamp_column : Option String := none
  expected_freshness_hours : Option ℚ := none
  expected_interval_hours : Option ℚ := none

/-- One entry of `validity_rules`: a `sql_expression` rule or a
`custom_function` rule naming a validator. -/
inductive ValidityRuleSpec where
  | sql_expression (expression : String)
  | custom_function (function : String) (parameters : List (String × ℚ))

/-- The `uniqueness_rules` dict. -/
structure UniquenessRules where
  primary_keys : List (List String) := []
  unique_columns : List String := []

/-- One entry of `anomaly_detection[column]` with its defaulted keys. -/
structure AnomalyRule where
  method : Option String := none
  threshold : Option ℚ := none

/-- The `quality_rules` dict of a `DataSourceConfig`. -/
structure QualityRules where
  required_columns : List String := []
  critical_columns : List String := []
  validation_rules : List (String × ColumnRules) := []
  consistency_rules : List (String × ConsistencyRule) := []
  format_consistency : List (String × String) := []
  timeliness_rules : TimelinessRules := {}
  validity_rules : List (String × ValidityRuleSpec) := []
  uniqueness_rules : UniquenessRules := {}
  anomaly_detection : List (String × AnomalyRule) := []

/-- `DataQualityMonitor.assess_data_completeness` (body of the `try`).
Required columns score `(len(df) - nulls)/len(df)*100` (0 on an empty frame or
a missing column); critical columns add a critical issue on any null but no
score.  The overall score is the mean of the collected scores, defaulting to
100 when no score was collected. -/
def assess_data_completeness (df : Df) (cfg : QualityRules)
    (th : List (String × ℚ)) : ℚ × List Issue :=
  let step := cfg.required_columns.foldl (fun acc column =>
    match getColumn df column with
    | some cells =>
      let nc := nullCount cells
      let completeness : ℚ :=
        if 0 < df.nrows then (((df.nrows : ℚ) - nc) / df.nrows) * 100 else 0
      let issues :=
        if completeness < lookupD th "completeness" 95 then
          acc.2 ++ [{ type := "completeness",
                      severity := some (if completeness < 80 then "high" else "medium"),
                      column := some column, score := some completeness,
                      description := "column completeness below threshold" }]
        else acc.2
      (acc.1 ++ [completeness], issues)
    | none =>
      (acc.1 ++ [(0 : ℚ)],
       acc.2 ++ [{ type := "completeness", severity := some "critical",
                   column := some column, score := some 0,
                   description := "required column is missing" }]))
    (([], []) : List ℚ × List Issue)
  let critIssues := cfg.critical_columns.foldl (fun acc column =>
    match getColumn df column with
    | some cells =>
      let nc := nullCount cells
      if 0 < nc then
        acc ++ [{ type := "completeness", severity := some "critical",
                  column := some column,
                  score := some ((((df.nrows : ℚ) - nc) / df.nrows) * 100),
                  description := "critical column has null values" }]
      else acc
    | none => acc) ([] : List Issue)
  (if step.1.isEmpty then 100 else meanQ step.1, step.2 ++ critIssues)

/-- Range check of `assess_data_accuracy`: a row passes when the cell is
non-null and within the (optional) bounds, as in
`df[(df[column] >= min_val) & (df[column] <= max_val)]`. -/
def rangeCheckOk (r : ColumnRules) (c : Cell) : Bool :=
  match c with
  | none => false
  | some v =>
    (match r.min_value with | none => true | some m => decide (m ≤ v)) &&
    (match r.max_value with | none => true | some M => decide (v ≤ M))

/-- `DataQualityMonitor.assess_data_accuracy` (body of the `try`): per column
rule, the range / pattern / enum sub-checks each score `valid/len(df)*100` and
raise a medium issue below 95.  Mean of sub-scores, defaulting to 100. -/
def assess_data_accuracy (df : Df) (cfg : QualityRules) : ℚ × List Issue :=
  let step := cfg.validation_rules.foldl (fun acc cr =>
    let column := cr.1
    let rules := cr.2
    match getColumn df column with
    | none => acc
    | some cells =>
      let acc1 :=
        if rules.min_value.isSome || rules.max_value.isSome then
          let valid := cells.countP (rangeCheckOk rules)
          let accuracy : ℚ :=
            if 0 < df.nrows then ((valid : ℚ) / df.nrows) * 100 else 0
          (acc.1 ++ [accuracy],
           if accuracy < 95 then
             acc.2 ++ [{ type := "accuracy", severity := some "medium",
                         column := some column, rule := some "range_validation",
                         score := some accuracy,
                         description := "range validation below 95 percent" }]
           else acc.2)
        else acc
      let acc2 :=
        match rules.pattern with
        | some p =>
          let valid := cells.countP p
          let accuracy : ℚ :=
            if 0 < df.nrows then ((valid : ℚ) / df.nrows) * 100 else 0
          (acc1.1 ++ [accuracy],
           if accuracy < 95 then
             acc1.2 ++ [{ type := "accuracy", severity := some "medium",
                          column := some column, rule := some "pattern_validation",
                          score := some accuracy,
                          description := "pattern validation below 95 percent" }]
           else acc1.2)
        | none => acc1
      match rules.allowed_values with
      | some allowed =>
        let valid := cells.countP (fun c =>
          match c with
          | some v => allowed.contains v
          | none => false)
        let accuracy : ℚ :=
          if 0 < df.nrows then ((valid : ℚ) / df.nrows) * 100 else 0
        (acc2.1 ++ [accuracy],
         if accuracy < 95 then
           acc2.2 ++ [{ type := "accuracy", severity := some "medium",
                        column := some column, rule := some "enum_validation",
                        score := some accuracy,
                        description := "enum validation below 95 percent" }]
         else acc2.2)
      | none => acc2)
    (([], []) : List ℚ × List Issue)
  (if step.1.isEmpty then 100 else meanQ step.1, step.2)

/-- Row-wise comparison of `assess_data_consistency`; a null on either side
fails the comparison (pandas NaN semantics). -/
def cmpCells (op : String) (a b : Cell) : Bool :=
  match a, b with
  | some x, some y =>
    if op = "greater_than" then decide (y < x)
    else if op = "less_than" then decide (x < y)
    else if op = "equal" then x == y
    else false
  | _, _ => false

/-- `DataQualityMonitor.assess_data_consistency` (body of the `try`):
cross-column rules score the fraction of rows satisfying the comparison (an
unrecognised operator is skipped); `format_consistency` rules of kind `date`
score the fraction of non-null entries (the source counts `notna()` of the
original column after a coercing parse).  Mean of sub-scores, default 100. -/
def assess_data_consistency (df : Df) (cfg : QualityRules) : ℚ × List Issue :=
  let cross := cfg.consistency_rules.foldl (fun acc rr =>
    let rule_name := rr.1
    let rc := rr.2
    if rc.type = "cross_column" then
      match getColumn df rc.column1, getColumn df rc.column2 with
      | some a, some b =>
        if rc.operator = "greater_than" ∨ rc.operator = "less_than" ∨
            rc.operator = "equal" then
          let valid := (a.zip b).countP (fun p => cmpCells rc.operator p.1 p.2)
          let consistency : ℚ :=
            if 0 < df.nrows then ((valid : ℚ) / df.nrows) * 100 else 0
          (acc.1 ++ [consistency],
           if consistency < 95 then
             acc.2 ++ [{ type := "consistency", severity := some "medium",
                         rule := some rule_name, score := some consistency,
                         description := "cross-column consistency below 95 percent" }]
           else acc.2)
        else acc
      | _, _ => acc
    else acc)
    (([], []) : List ℚ × List Issue)
  let fmt := cfg.format_consistency.foldl (fun acc fr =>
    let column := fr.1
    let expected_format := fr.2
    match getColumn df column with
    | some cells =>
      if expected_format = "date" then
        let valid := notNullCount cells
        let consistency : ℚ :=
          if 0 < df.nrows then ((valid : ℚ) / df.nrows) * 100 else 0
        (acc.1 ++ [consistency],
         if consistency < 95 then
           acc.2 ++ [{ type := "consistency", severity := some "medium",
                       column := some column, rule := some "date_format",
                       score := some consistency,
                       description := "date format consistency below 95 percent" }]
         else acc.2)
      else acc
    | none => acc)
    (([], []) : List ℚ × List Issue)
  let scores := cross.1 ++ fmt.1
  (if scores.isEmpty then 100 else meanQ scores, cross.2 ++ fmt.2)

/-- Maximum of a list of rationals (`Series.max()` over the non-null values). -/
def listMaxQ : List ℚ → Option ℚ
  | [] => none
  | x :: xs =>
    match listMaxQ xs with
    | none => some x
    | some m => some (max x m)

/-- Insertion step of `sortQ`. -/
def insertQ (x : ℚ) : List ℚ → List ℚ
  | [] => [x]
  | y :: ys => if x ≤ y then x :: y :: ys else y :: insertQ x ys

/-- `Series.sort_values()` over the non-null values. -/
def sortQ : List ℚ → List ℚ
  | [] => []
  | x :: xs => insertQ x (sortQ xs)

/-- Consecutive differences, as `Series.diff()` without its leading NaN. -/
def diffsQ : List ℚ → List ℚ
  | [] => []
  | [_] => []
  | a :: b :: rest => (b - a) :: diffsQ (b :: rest)

/-- `DataQualityMonitor.assess_data_timeliness` (body of the `try`).
Timestamps are epoch seconds; `now` is `datetime.now()`.  Freshness score is
`max(0, 100 - (age_hours/expected)*100)` over the latest timestamp; gaps above
`2 * expected_interval_hours` (diffs in hours) contribute a gap score only when
at least one exists.  Mean of collected scores, default 100.  (A timestamp
column that exists but is entirely null gives NaN propagation in the source and
is not modelled; no claim exercises it.) -/
def assess_data_timeliness (now : ℚ) (df : Df) (cfg : QualityRules) :
    ℚ × List Issue :=
  let tr := cfg.timeliness_rules
  let fresh : List ℚ × List Issue :=
    match tr.timestamp_column with
    | none => ([], [])
    | some tc =>
      match getColumn df tc with
      | none => ([], [])
      | some cells =>
        match listMaxQ (cells.filterMap id) with
        | none => ([], [])
        | some latest =>
          let freshness_hours := (now - latest) / 3600
          let efh := tr.expected_freshness_hours.getD 24
          let freshness_score := max 0 (100 - (freshness_hours / efh) * 100)
          let issues :=
            if efh < freshness_hours then
              [{ type := "timeliness",
                 severity := some (if efh * 2 < freshness_hours then "high" else "medium"),
                 column := some tc, score := some freshness_score,
                 description := "data older than expected freshness" }]
            else ([] : List Issue)
          ([freshness_score], issues)
  let gaps : List ℚ × List Issue :=
    match tr.timestamp_column with
    | none => ([], [])
    | some tc =>
      match getColumn df tc with
      | none => ([], [])
      | some cells =>
        let ts := sortQ (cells.filterMap id)
        let eih := tr.expected_interval_hours.getD 1
        let gapHours := (diffsQ ts).map (fun d => d / 3600)
        let large := gapHours.countP (fun g => decide (eih * 2 < g))
        if 0 < large then
          let gap_score := max 0 (100 - ((large : ℚ) / df.nrows) * 100)
          ([gap_score],
           [{ type := "timeliness", severity := some "medium",
              rule := some "data_gaps", score := some gap_score,
              description := "large time gaps in data" }])
        else ([], [])
  let scores := fresh.1 ++ gaps.1
  (if scores.isEmpty then 100 else meanQ scores, fresh.2 ++ gaps.2)

/-- `DataQualityMonitor.assess_data_validity` (body of the `try`).
`sql_expression` rules contribute a fixed 95 (the source's placeholder);
`custom_function` rules are dispatched through the registry abstracting
`hasattr(self, '_validate_' + name)` / `getattr`: a registered validator's
score is appended, an unknown name is only logged and contributes nothing.
The Great Expectations block is a no-op in the source.  Mean of collected
scores, default 100. -/
def assess_data_validity (df : Df) (cfg : QualityRules)
    (registry : String → Option (Df → List (String × ℚ) → ℚ)) :
    ℚ × List Issue :=
  let step := cfg.validity_rules.foldl (fun acc rr =>
    match rr.2 with
    | ValidityRuleSpec.sql_expression _ => (acc.1 ++ [(95 : ℚ)], acc.2)
    | ValidityRuleSpec.custom_function fname params =>
      match registry fname with
      | some validator => (acc.1 ++ [validator df params], acc.2)
      | none => acc)
    (([], []) : List ℚ × List Issue)
  (if step.1.isEmpty then 100 else meanQ step.1, step.2)

/-- Key tuple of row `i` on the primary-key column set (columns are present by
the caller's guard).  `drop_duplicates` treats equal nulls as duplicates, as
`none = none` does here. -/
def rowKey (df : Df) (pk : List String) (i : ℕ) : List Cell :=
  pk.map (fun c => ((getColumn df c).getD []).getD i none)

/-- `DataQualityMonitor.assess_data_uniqueness` (body of the `try`).
Primary-key sets score `distinct rows / rows * 100` with a high/medium issue
below 100 (high below 95); unique columns score
`nunique / notna * 100` with a medium issue below 100.  Mean, default 100. -/
def assess_data_uniqueness (df : Df) (cfg : QualityRules) : ℚ × List Issue :=
  let ur := cfg.uniqueness_rules
  let pks := ur.primary_keys.foldl (fun acc pk =>
    if pk.all (fun c => hasColumn df c) then
      let unique_rows := ((List.range df.nrows).map (rowKey df pk)).dedup.length
      let uniqueness : ℚ :=
        if 0 < df.nrows then ((unique_rows : ℚ) / df.nrows) * 100 else 0
      (acc.1 ++ [uniqueness],
       if uniqueness < 100 then
         acc.2 ++ [{ type := "uniqueness",
                     severity := some (if uniqueness < 95 then "high" else "medium"),
                     columns := some pk, score := some uniqueness,
                     description := "primary key has duplicates" }]
       else acc.2)
    else acc)
    (([], []) : List ℚ × List Issue)
  let uniq := ur.unique_columns.foldl (fun acc column =>
    match getColumn df column with
    | some cells =>
      let total := notNullCount cells
      let unique_values := (cells.filterMap id).dedup.length
      let uniqueness : ℚ :=
        if 0 < total then ((unique_values : ℚ) / total) * 100 else 0
      (acc.1 ++ [uniqueness],
       if uniqueness < 100 then
         acc.2 ++ [{ type := "uniqueness", severity := some "medium",
                     column := some column, score := some uniqueness,
                     description := "column should be unique but has duplicates" }]
       else acc.2)
    | none => acc)
    (([], []) : List ℚ × List Issue)
  let scores := pks.1 ++ uniq.1
  (if scores.isEmpty then 100 else meanQ scores, pks.2 ++ uniq.2)

/-- Population mean over the non-null values of a column. -/
def popMean (l : List ℚ) : ℚ := l.sum / l.length

/-- Population variance (`scipy.stats.zscore` standardises with `ddof = 0`). -/
def popVariance (l : List ℚ) : ℚ :=
  (l.map (fun x => (x - popMean l) ^ 2)).sum / l.length

/-- `(np.abs(stats.zscore(values)) > threshold).sum()` over `ℚ`:
`|x - mean|/std > t` is encoded without square roots as
`(x - mean)^2 > t^2 * variance` for `t ≥ 0` (always true for `t < 0`); a zero
variance makes every z-score NaN in the source, and NaN comparisons are false,
so nothing is counted. -/
def zscoreAnomalyCount (vals : List ℚ) (threshold : ℚ) : ℕ :=
  let m := popMean vals
  let v := popVariance vals
  if v = 0 then 0
  else vals.countP (fun x =>
    if threshold < 0 then true else decide (threshold ^ 2 * v < (x - m) ^ 2))

/-- `Series.quantile(q)` with pandas' default linear interpolation on the
sorted non-null values. -/
def quantileLinear (vals : List ℚ) (q : ℚ) : ℚ :=
  let s := sortQ vals
  let n := s.length
  if n = 0 then 0
  else
    let h := q * ((n : ℚ) - 1)
    let lo := h.floor.toNat
    let frac := h - (lo : ℚ)
    let a := s.getD lo 0
    let b := s.getD (min (lo + 1) (n - 1)) 0
    a + frac * (b - a)

/-- One entry of the anomaly list of `detect_anomalies`. -/
structure Anomaly where
  type : String
  column : String
  method : String
  count : ℕ
  percentage : ℚ
deriving DecidableEq

/-- Per-column step of `detect_anomalies`: with the column's `anomaly_detection`
entry (defaults: method `zscore`, threshold 3), count outliers and append an
`Anomaly` only when the count is positive.  The zscore count runs over the
non-null values; the IQR fences are `[Q1 - 1.5*IQR, Q3 + 1.5*IQR]` from the
25th/75th percentiles and the count runs over the rows (nulls fail both
comparisons). -/
def detectStep (df : Df) (cfg : QualityRules) (acc : List Anomaly)
    (col : String × List Cell) : List Anomaly :=
  let column := col.1
  let cells := col.2
  match (cfg.anomaly_detection.find? (fun p => p.1 == column)).map (fun p => p.2) with
  | none => acc
  | some r =>
    let method := r.method.getD "zscore"
    let threshold := r.threshold.getD 3
    if method = "zscore" then
      let cnt := zscoreAnomalyCount (cells.filterMap id) threshold
      if 0 < cnt then
        acc ++ [{ type := "statistical_outlier", column := column,
                  method := "zscore", count := cnt,
                  percentage := ((cnt : ℚ) / df.nrows) * 100 }]
      else acc
    else if method = "iqr" then
      let nonNull := cells.filterMap id
      let q1 := quantileLinear nonNull (1 / 4)
      let q3 := quantileLinear nonNull (3 / 4)
      let iqr := q3 - q1
      let lower_bound := q1 - (3 / 2) * iqr
      let upper_bound := q3 + (3 / 2) * iqr
      let cnt : ℕ := cells.countP (fun c =>
        match c with
        | some v => decide (v < lower_bound) || decide (upper_bound < v)
        | none => false)
      if 0 < cnt then
        acc ++ [{ type := "iqr_outlier", column := column,
                  method := "iqr", count := cnt,
                  percentage := ((cnt : ℚ) / df.nrows) * 100 }]
      else acc
    else acc

/-- `DataQualityMonitor.detect_anomalies` (body of the `try`): the columns of
the frame are scanned in order with `detectStep`. -/
def detect_anomalies (df : Df) (cfg : QualityRules) : List Anomaly :=
  df.cols.foldl (detectStep df cfg) ([] : List Anomaly)

/-- The six per-table dimension scores and pooled issues collected by
`assess_data_source` for one table, in the source's order. -/
def assessTable (now : ℚ) (df : Df) (cfg : QualityRules)
    (th : List (String × ℚ))
    (registry : String → Option (Df → List (String × ℚ) → ℚ)) :
    List ℚ × List Issue :=
  let c := assess_data_completeness df cfg th
  let a := assess_data_accuracy df cfg
  let co := assess_data_consistency df cfg
  let t := assess_data_timeliness now df cfg
  let v := assess_data_validity df cfg registry
  let u := assess_data_uniqueness df cfg
  ([c.1, a.1, co.1, t.1, v.1, u.1], c.2 ++ a.2 ++ co.2 ++ t.2 ++ v.2 ++ u.2)

/-- The `overall_score` computation of `assess_data_source`: all six dimension
scores of every non-empty table are pooled and `overall_score` is their mean
(`0` when nothing was assessed). -/
def assess_source_overall (now : ℚ) (cfg : QualityRules)
    (th : List (String × ℚ))
    (registry : String → Option (Df → List (String × ℚ) → ℚ))
    (dfs : List Df) : ℚ :=
  let all_scores :=
    ((dfs.filter (fun d => decide (0 < d.nrows))).map
      (fun d => (assessTable now d cfg th registry).1)).flatten
  if all_scores.isEmpty then 0 else meanQ all_scores

/-- The pass/fail counting of `assess_data_source` (lines 693-698): an issue of
type `error` counts toward neither tally; any other issue passes when its score
meets the threshold registered for its type (default 95). -/
def count_checks (issues : List Issue) (th : List (String × ℚ)) : ℕ × ℕ :=
  issues.foldl (fun acc i =>
    if i.type ≠ "error" then
      if lookupD th i.type 95 ≤ i.score.getD 0 then (acc.1 + 1, acc.2)
      else (acc.1, acc.2 + 1)
    else acc) (0, 0)

/-- The `except Exception` branch of each dimension evaluator: the issue dict
`{'type': 'error', 'description': str(e)}` carries no severity, column or score. -/
def error_issue (e : String) : Issue :=
  { type := "error", description := e }

/-- The evaluator boundary: a body that raises is converted into score 0 plus a
single `error` issue and never propagates. -/
def run_evaluator (body : Except String (ℚ × List Issue)) : ℚ × List Issue :=
  match body with
  | Except.ok r => r
  | Except.error e => (0, [error_issue e])

/-- The claim-side (spec-following) aggregate for C1.  Modelled from the spec:
`overallScore` is the arithmetic mean of the scores of exactly those dimensions
that have at least one applicable rule in the RuleSet; a dimension with zero
configured rules is excluded from the mean. -/
def overallScore_specC1 (now : ℚ) (df : Df) (cfg : QualityRules)
    (th : List (String × ℚ))
    (registry : String → Option (Df → List (String × ℚ) → ℚ)) : ℚ :=
  let six := (assessTable now df cfg th registry).1
  let flags : List Bool :=
    [!cfg.required_columns.isEmpty || !cfg.critical_columns.isEmpty,
     !cfg.validation_rules.isEmpty,
     !cfg.consistency_rules.isEmpty || !cfg.format_consistency.isEmpty,
     cfg.timeliness_rules.timestamp_column.isSome,
     !cfg.validity_rules.isEmpty,
     !cfg.uniqueness_rules.primary_keys.isEmpty ||
       !cfg.uniqueness_rules.unique_columns.isEmpty]
  meanQ ((six.zip flags).filterMap (fun p => if p.2 then some p.1 else none))

/-- The partial result fields of `DataQualityResult` read by
`_check_quality_alerts` (the remaining fields are not read there). -/
structure DataQualityResult where
  data_source : String := ""
  overall_score : ℚ := 0
  anomalies_detected : ℕ := 0
  checks_passed : ℕ := 0
  checks_failed : ℕ := 0

/-- One quality alert dict; `value` holds the score / anomaly count /
failure rate field of the corresponding source dict. -/
structure QualityAlert where
  type : String
  severity : String
  data_source : String
  value : ℚ
  threshold : ℚ
deriving DecidableEq

/-- `checks_failed / (checks_passed + checks_failed)`, 0 on a zero denominator. -/
def failure_rate (r : DataQualityResult) : ℚ :=
  if 0 < r.checks_passed + r.checks_failed then
    (r.checks_failed : ℚ) / ((r.checks_passed : ℚ) + (r.checks_failed : ℚ))
  else 0

/-- `DataQualityMonitor._check_quality_alerts`: the ordered alert list built
from the overall-score, anomaly-count and failure-rate conditions. -/
def check_quality_alerts (r : DataQualityResult) (th : List (String × ℚ)) :
    List QualityAlert :=
  (if r.overall_score < lookupD th "overall" 85 then
    [{ type := "overall_quality_degradation",
       severity := if r.overall_score < 70 then "critical" else "warning",
       data_source := r.data_source, value := r.overall_score,
       threshold := lookupD th "overall" 85 }]
   else []) ++
  (if lookupD th "max_anomalies" 10 < (r.anomalies_detected : ℚ) then
    [{ type := "anomaly_spike", severity := "warning",
       data_source := r.data_source, value := (r.anomalies_detected : ℚ),
       threshold := lookupD th "max_anomalies" 10 }]
   else []) ++
  (if lookupD th "max_failure_rate" (1 / 10) < failure_rate r then
    [{ type := "high_failure_rate", severity := "warning",
       data_source := r.data_source, value := failure_rate r,
       threshold := lookupD th "max_failure_rate" (1 / 10) }]
   else [])

/-- `ModelPerformanceTracker._calculate_drift_score`: the usable per-metric
contributions `|current - baseline_mean| / baseline_std` (std must be present
and positive). -/
def driftContributions (baseline : List (String × ℚ))
    (current : List (String × ℚ)) : List ℚ :=
  current.filterMap (fun mc =>
    match (baseline.find? (fun p => p.1 == mc.1 ++ "_mean")).map (fun p => p.2),
        (baseline.find? (fun p => p.1 == mc.1 ++ "_std")).map (fun p => p.2) with
    | some m, some s => if 0 < s then some (|mc.2 - m| / s) else none
    | _, _ => none)

/-- `ModelPerformanceTracker._calculate_drift_score`: 0 on an empty baseline,
else the mean of the usable contributions (0 when none is usable). -/
def calculate_drift_score (baseline : List (String × ℚ))
    (current : List (String × ℚ)) : ℚ :=
  if baseline.isEmpty then 0
  else
    let drift_scores := driftContributions baseline current
    if drift_scores.isEmpty then 0 else meanQ drift_scores

/-- Modelled from the spec: the drift score is the mean over metrics with a
positive baseline standard deviation of `|current - baselineMean|/baselineStdDev`,
and exactly 0 when no metric has a usable baseline. -/
def driftScore_spec (baseline : List (String × ℚ))
    (current : List (String × ℚ)) : ℚ :=
  let cs := driftContributions baseline current
  if cs.isEmpty then 0 else meanQ cs

/-- `np.max` of one probability row. -/
def maxRow (row : List ℚ) : ℚ :=
  match row with
  | [] => 0
  | h :: t => t.foldl max h

/-- The confidence-score selection of
`ModelPerformanceTracker.evaluate_model_performance` (lines 223-233):
TensorFlow models and models exposing `predict_proba` take the row-wise max of
the probabilities; otherwise every prediction defaults to confidence 0.5. -/
def confidence_scores (model_type : String) (has_predict_proba : Bool)
    (y_pred_proba : List (List ℚ)) (y_pred_len : ℕ) : List ℚ :=
  if model_type = "tensorflow" then y_pred_proba.map maxRow
  else if has_predict_proba then y_pred_proba.map maxRow
  else List.replicate y_pred_len (1 / 2)

/-- The fields of `ModelMetrics` read by `_check_alerts`. -/
structure ModelMetrics where
  model_name : String := ""
  accuracy : ℚ := 0
  drift_score : ℚ := 0
  confidence_mean : ℚ := 0

/-- One model alert dict. -/
structure ModelAlert where
  type : String
  severity : String
  model_name : String
  current_value : ℚ
  threshold : ℚ
deriving DecidableEq

/-- `ModelPerformanceTracker._check_alerts`: the ordered alert list built from
the accuracy, drift and confidence conditions. -/
def check_alerts (m : ModelMetrics) (accuracy_threshold drift_threshold : ℚ) :
    List ModelAlert :=
  (if m.accuracy < accuracy_threshold then
    [{ type := "accuracy_degradation", severity := "critical",
       model_name := m.model_name, current_value := m.accuracy,
       threshold := accuracy_threshold }]
   else []) ++
  (if drift_threshold < m.drift_score then
    [{ type := "model_drift", severity := "warning",
       model_name := m.model_name, current_value := m.drift_score,
       threshold := drift_threshold }]
   else []) ++
  (if m.confidence_mean < 7 / 10 then
    [{ type := "low_confidence", severity := "warning",
       model_name := m.model_name, current_value := m.confidence_mean,
       threshold := 7 / 10 }]
   else [])

/-- Severity order used by the alert-list claims: critical before warning
before info. -/
def sevRank (s : String) : ℕ :=
  if s = "critical" then 0
  else if s = "warning" then 1
  else if s = "info" then 2
  else 3

/-! ## Helper lemmas -/

/-- Every anomaly appended by `detectStep` has a positive count. -/
lemma detectStep_count_pos (df : Df) (cfg : QualityRules)
    (acc : List Anomaly) (col : String × List Cell)
    (hacc : ∀ x ∈ acc, 0 < x.count) :
    ∀ x ∈ detectStep df cfg acc col, 0 < x.count := by
  intro x hx
  unfold detectStep at hx
  dsimp only at hx
  split at hx
  · exact hacc x hx
  · split_ifs at hx with h1 h2 h3 h4 <;>
      first
        | exact hacc x hx
        | · rcases List.mem_append.mp hx with h | h
            · exact hacc x h
            · simp only [List.mem_singleton] at h
              subst h
              assumption

/-- Every anomaly reported by `detect_anomalies` has a positive count. -/
lemma detect_anomalies_count_pos (df : Df) (cfg : QualityRules) :
    ∀ x ∈ detect_anomalies df cfg, 0 < x.count := by
  unfold detect_anomalies
  have h : ∀ (cols : List (String × List Cell)) (acc : List Anomaly),
      (∀ x ∈ acc, 0 < x.count) →
      ∀ x ∈ cols.foldl (detectStep df cfg) acc, 0 < x.count := by
    intro cols
    induction cols with
    | nil => intro acc hacc x hx; exact hacc x hx
    | cons c t ih =>
      intro acc hacc x hx
      exact ih (detectStep df cfg acc c) (detectStep_count_pos df cfg acc c hacc) x hx
  exact h df.cols [] (by intro x hx; cases hx)

/-- With an empty baseline map every lookup fails, so no metric contributes. -/
lemma driftContributions_nil (current : List (String × ℚ)) :
    driftContributions [] current = [] := by
  induction current with
  | nil => rfl
  | cons h t ih =>
    simp only [driftContributions, List.filterMap_cons, List.find?_nil,
      Option.map_none] at ih ⊢
    exact ih

/-! ## Claims -/

/-- C2 (counterexample): on the column values `[1,1,1,1,100]` with method
`zscore` and threshold 3 the detector reports no anomaly at all — the claim
that at least one anomaly is reported for the outlier 100 is false (the
outlier's population z-score is exactly 2). -/
theorem zscore_outlier_not_flagged_cex :
    detect_anomalies ⟨5, [("x", [some 1, some 1, some 1, some 1, some 100])]⟩
      { anomaly_detection := [("x", { method := some "zscore", threshold := some 3 })] }
      = [] := by
  norm_num [detect_anomalies, detectStep, zscoreAnomalyCount, popMean,
    popVariance, List.find?, beq_iff_eq, List.countP_cons, List.countP_nil,
    List.filterMap_cons, List.filterMap_nil, id_eq, decide_eq_true_eq]

/-- C2 (amended): on `[1,1,1,1,100]` the `zscore` method with threshold 3
reports zero anomalies — the outlier's population z-score is exactly 2, as
`(100 - mean)^2 = 2^2 * variance` shows — while the `iqr` method flags the
outlier 100 (it lies outside the fences `[Q1 - 1.5*IQR, Q3 + 1.5*IQR]`),
reporting one anomaly covering 20 percent of the rows. -/
theorem anomaly_detection_on_sample_values :
    detect_anomalies ⟨5, [("x", [some 1, some 1, some 1, some 1, some 100])]⟩
      { anomaly_detection := [("x", { method := some "zscore", threshold := some 3 })] }
      = []
    ∧ ((100 : ℚ) - popMean [1, 1, 1, 1, 100]) ^ 2
        = 2 ^ 2 * popVariance [1, 1, 1, 1, 100]
    ∧ detect_anomalies ⟨5, [("x", [some 1, some 1, some 1, some 1, some 100])]⟩
      { anomaly_detection := [("x", { method := some "iqr", threshold := some 3 })] }
      = [{ type := "iqr_outlier", column := "x", method := "iqr",
           count := 1, percentage := 20 }] := by
  refine ⟨?_, ?_, ?_⟩
  · norm_num [detect_anomalies, detectStep, zscoreAnomalyCount, popMean,
      popVariance, List.find?, beq_iff_eq, List.countP_cons, List.countP_nil,
      List.filterMap_cons, List.filterMap_nil, id_eq, decide_eq_true_eq]
  · norm_num [popMean, popVariance]
  · have hq1 : quantileLinear [1, 1, 1, 1, 100] (1 / 4) = 1 := by
      norm_num [quantileLinear, sortQ, insertQ, Rat.floor, List.getD, min_def]
    have hq3 : quantileLinear [1, 1, 1, 1, 100] (3 / 4) = 1 := by
      norm_num [quantileLinear, sortQ, insertQ, Rat.floor, List.getD, min_def,
        show Int.toNat 3 = 3 from rfl]
    norm_num [detect_anomalies, detectStep, List.find?, beq_iff_eq,
      List.filterMap_cons, List.filterMap_nil, id_eq, hq1, hq3,
      List.countP_cons, List.countP_nil, decide_eq_true_eq]
    exact fun h => absurd h (by decide)

/-- C3 (failing input): a sample whose single timestamp lies 24 hours in the
future of the evaluation time, with `expected_freshness_hours = 24`, makes the
timeliness score `max(0, 100 - (-24/24)*100) = 200`, strictly above 100 — the
dimension-score invariant `score ∈ [0,100]` asserted by the claim (and by the
gauge's own `(0-100)` documentation) is violated by the code. -/
theorem timeliness_score_exceeds_100_on_future_timestamp :
    (assess_data_timeliness 0 ⟨1, [("ts", [some 86400])]⟩
      { timeliness_rules := { timestamp_column := some "ts",
                              expected_freshness_hours := some 24 } }).1 = 200
    ∧ ¬ ((assess_data_timeliness 0 ⟨1, [("ts", [some 86400])]⟩
      { timeliness_rules := { timestamp_column := some "ts",
                              expected_freshness_hours := some 24 } }).1 ≤ 100) := by
  norm_num [assess_data_timeliness, getColumn, listMaxQ, sortQ, insertQ,
    diffsQ, meanQ, List.find?, beq_iff_eq, max_def]

/-- C4 (counterexample): the issue produced at an evaluator boundary for the
error detail `boom` is `{'type': 'error', 'description': 'boom'}` — it does
not carry severity `critical` (it has no severity at all) and its type is the
literal `error`, not the failing dimension. -/
theorem error_issue_lacks_severity_cex :
    (run_evaluator (Except.error "boom")).2 = [error_issue "boom"]
    ∧ (error_issue "boom").severity ≠ some "critical"
    ∧ (error_issue "boom").type = "error" := by
  refine ⟨rfl, ?_, rfl⟩
  simp [error_issue]

/-- C4 (amended): an exception inside a dimension evaluator never propagates
past the boundary: it becomes score 0 plus a single issue of type `error`
carrying the error detail but no severity and no dimension tag, and that issue
counts toward neither `checks_passed` nor `checks_failed`. -/
theorem evaluator_error_boundary (e : String) (th : List (String × ℚ))
    (issues : List Issue) :
    run_evaluator (Except.error e) = (0, [error_issue e])
    ∧ (error_issue e).type = "error"
    ∧ (error_issue e).severity = none
    ∧ (error_issue e).description = e
    ∧ count_checks (issues ++ [error_issue e]) th = count_checks issues th := by
  refine ⟨rfl, rfl, rfl, rfl, ?_⟩
  simp [count_checks, List.foldl_append, error_issue]

/-- C5 (counterexample): a validity rule of type `custom_function` whose
validator name is not registered is skipped with no issue at all — the claim
that a medium-severity issue is emitted for the rule is false. -/
theorem unknown_validator_no_issue_cex :
    assess_data_validity ⟨1, []⟩
      { validity_rules := [("r1", ValidityRuleSpec.custom_function "nonexistent" [])] }
      (fun _ => none)
      = (100, []) := by
  simp [assess_data_validity]

/-- C5 (amended): an unknown validator name makes the `custom_function` rule a
no-op — it is skipped (only a warning is logged), contributes no score and no
issue, the evaluation is not fatal, and the remaining rules are evaluated
exactly as if the unknown rule were absent. -/
theorem unknown_validator_skipped (df : Df) (cfg : QualityRules)
    (registry : String → Option (Df → List (String × ℚ) → ℚ))
    (rname fname : String) (params : List (String × ℚ))
    (rest : List (String × ValidityRuleSpec))
    (hreg : registry fname = none)
    (hrules : cfg.validity_rules
      = (rname, ValidityRuleSpec.custom_function fname params) :: rest) :
    assess_data_validity df cfg registry
      = assess_data_validity df { cfg with validity_rules := rest } registry := by
  simp [assess_data_validity, hrules, hreg]

/-- C5 (witness): concrete application of `unknown_validator_skipped`. -/
theorem unknown_validator_skipped_witness :
    assess_data_validity ⟨1, []⟩
      { validity_rules := [("r1", ValidityRuleSpec.custom_function "nonexistent" [])] }
      (fun _ => none)
      = assess_data_validity ⟨1, []⟩ { validity_rules := [] } (fun _ => none) :=
  unknown_validator_skipped ⟨1, []⟩
    { validity_rules := [("r1", ValidityRuleSpec.custom_function "nonexistent" [])] }
    (fun _ => none) "r1" "nonexistent" [] [] rfl rfl

/-- C8: if the population variance (hence the population standard deviation)
of a column's non-null values is 0, the `zscore` method counts zero anomalies
(the source's z-scores are all NaN and NaN comparisons are false, so the
evaluation is total and nothing is flagged); moreover every anomaly the
detector does report has a strictly positive count. -/
theorem zscore_zero_variance_no_anomalies :
    (∀ (vals : List ℚ) (threshold : ℚ), popVariance vals = 0 →
      zscoreAnomalyCount vals threshold = 0)
    ∧ ∀ (df : Df) (cfg : QualityRules) (a : Anomaly),
        a ∈ detect_anomalies df cfg → 0 < a.count := by
  constructor
  · intro vals threshold h
    simp [zscoreAnomalyCount, h]
  · intro df cfg a ha
    exact detect_anomalies_count_pos df cfg a ha

/-- C8 (witness): concrete application of `zscore_zero_variance_no_anomalies`
at the constant column `[2, 2]`. -/
theorem zscore_zero_variance_no_anomalies_witness :
    zscoreAnomalyCount [2, 2] 3 = 0 :=
  zscore_zero_variance_no_anomalies.1 [2, 2] 3 (by norm_num [popVariance, popMean])

/-- C6: the drift score computed by the code coincides with the spec's formula
(mean over metrics with a positive baseline standard deviation of
`|current - baselineMean| / baselineStdDev`); it is exactly 0 when no metric
has a usable baseline (empty baseline map, or every stdDev missing or not
positive); and for a single metric with current 0.70, baseline mean 0.90 and
baseline stdDev 0.05 it is exactly 4. -/
theorem drift_score_spec_conformance :
    (∀ (baseline current : List (String × ℚ)),
      calculate_drift_score baseline current = driftScore_spec baseline current)
    ∧ (∀ (baseline current : List (String × ℚ)),
        driftContributions baseline current = [] →
        calculate_drift_score baseline current = 0)
    ∧ calculate_drift_score [("accuracy_mean", 9 / 10), ("accuracy_std", 1 / 20)]
        [("accuracy", 7 / 10)] = 4 := by
  refine ⟨?_, ?_, ?_⟩
  · intro baseline current
    cases baseline with
    | nil =>
      simp [calculate_drift_score, driftScore_spec, driftContributions_nil]
    | cons b bs =>
      simp [calculate_drift_score, driftScore_spec]
  · intro baseline current h
    simp [calculate_drift_score, driftScore_spec, h]
  · have habs : |(7 / 10 : ℚ) - 9 / 10| = 1 / 5 := by
      rw [abs_sub_comm, abs_of_nonneg] <;> norm_num
    have hm : "accuracy" ++ "_mean" = "accuracy_mean" := by decide
    have hs : "accuracy" ++ "_std" = "accuracy_std" := by decide
    have hne : ("accuracy_mean" == "accuracy_std") = false := by decide
    have habs2 : |(1 / 5 : ℚ)| = 1 / 5 := abs_of_nonneg (by norm_num)
    norm_num [calculate_drift_score, driftContributions, meanQ, List.find?,
      beq_iff_eq, List.filterMap_cons, List.filterMap_nil, habs, habs2, hm,
      hs, hne]

/-- C6 (witness): concrete application of `drift_score_spec_conformance` with
no usable baseline. -/
theorem drift_score_spec_conformance_witness :
    calculate_drift_score [] [] = 0 :=
  drift_score_spec_conformance.2.1 [] [] rfl

/-- Membership characterization of the quality alert list: each of the three
alerts is present exactly when its condition holds. -/
lemma check_quality_alerts_mem (r : DataQualityResult) (th : List (String × ℚ))
    (a : QualityAlert) :
    a ∈ check_quality_alerts r th ↔
      (r.overall_score < lookupD th "overall" 85 ∧
        a = { type := "overall_quality_degradation",
              severity := if r.overall_score < 70 then "critical" else "warning",
              data_source := r.data_source, value := r.overall_score,
              threshold := lookupD th "overall" 85 })
      ∨ (lookupD th "max_anomalies" 10 < (r.anomalies_detected : ℚ) ∧
        a = { type := "anomaly_spike", severity := "warning",
              data_source := r.data_source, value := (r.anomalies_detected : ℚ),
              threshold := lookupD th "max_anomalies" 10 })
      ∨ (lookupD th "max_failure_rate" (1 / 10) < failure_rate r ∧
        a = { type := "high_failure_rate", severity := "warning",
              data_source := r.data_source, value := failure_rate r,
              threshold := lookupD th "max_failure_rate" (1 / 10) }) := by
  unfold check_quality_alerts
  split_ifs with h1 h2 h3 <;> simp_all [← not_lt]

/-- C7: the `overall_quality_degradation` alert is produced if and only if the
overall score is strictly below the `overall` threshold (default 85) — at the
boundary no alert fires — and when it is produced its severity is `critical`
exactly when the overall score is below 70 and `warning` otherwise. -/
theorem overall_quality_degradation_iff (r : DataQualityResult)
    (th : List (String × ℚ)) :
    ((∃ a ∈ check_quality_alerts r th, a.type = "overall_quality_degradation")
      ↔ r.overall_score < lookupD th "overall" 85)
    ∧ ∀ a ∈ check_quality_alerts r th,
        a.type = "overall_quality_degradation" →
        a.severity = (if r.overall_score < 70 then "critical" else "warning") := by
  have hne1 : "anomaly_spike" ≠ "overall_quality_degradation" := by decide
  have hne2 : "high_failure_rate" ≠ "overall_quality_degradation" := by decide
  constructor
  · constructor
    · rintro ⟨a, ha, hty⟩
      rcases (check_quality_alerts_mem r th a).mp ha with
        ⟨h, rfl⟩ | ⟨h, rfl⟩ | ⟨h, rfl⟩
      · exact h
      · exact absurd hty hne1
      · exact absurd hty hne2
    · intro hlt
      exact ⟨_, (check_quality_alerts_mem r th _).mpr (Or.inl ⟨hlt, rfl⟩), rfl⟩
  · intro a ha hty
    rcases (check_quality_alerts_mem r th a).mp ha with
      ⟨h, rfl⟩ | ⟨h, rfl⟩ | ⟨h, rfl⟩
    · rfl
    · exact absurd hty hne1
    · exact absurd hty hne2

/-- C7 (witness): concrete application of `overall_quality_degradation_iff`
at overall score 80 against the default threshold 85. -/
theorem overall_quality_degradation_iff_witness :
    (∃ a ∈ check_quality_alerts { data_source := "s", overall_score := 80 } [],
      a.type = "overall_quality_degradation")
    ∧ ∀ a ∈ check_quality_alerts { data_source := "s", overall_score := 80 } [],
        a.type = "overall_quality_degradation" → a.severity = "warning" := by
  constructor
  · exact (overall_quality_degradation_iff
      { data_source := "s", overall_score := 80 } []).1.mpr
      (by norm_num [lookupD, List.find?])
  · intro a ha hty
    have h := (overall_quality_degradation_iff
      { data_source := "s", overall_score := 80 } []).2 a ha hty
    rwa [if_neg (by norm_num)] at h

/-- C9: for every assessment result and thresholds, the alert list of one
evaluation is ordered most severe first (critical before warning before info)
and never contains two alerts of the same kind for the same subject — for the
quality path (`_check_quality_alerts`, subject: data source) and the model
path (`_check_alerts`, subject: model name) alike, structurally for every
input. -/
theorem alerts_sorted_most_severe_first_and_distinct
    (r : DataQualityResult) (th : List (String × ℚ))
    (m : ModelMetrics) (ath dth : ℚ) :
    (check_quality_alerts r th).Pairwise
        (fun a b => sevRank a.severity ≤ sevRank b.severity)
    ∧ ((check_quality_alerts r th).map (fun a => (a.type, a.data_source))).Nodup
    ∧ (check_alerts m ath dth).Pairwise
        (fun a b => sevRank a.severity ≤ sevRank b.severity)
    ∧ ((check_alerts m ath dth).map (fun a => (a.type, a.model_name))).Nodup := by
  have h1 : sevRank "critical" = 0 := by simp [sevRank]
  have h2 : sevRank "warning" = 1 := by
    simp [sevRank, show "warning" ≠ "critical" from by decide]
  have t1 : "overall_quality_degradation" ≠ "anomaly_spike" := by decide
  have t2 : "overall_quality_degradation" ≠ "high_failure_rate" := by decide
  have t3 : "anomaly_spike" ≠ "high_failure_rate" := by decide
  have t4 : "accuracy_degradation" ≠ "model_drift" := by decide
  have t5 : "accuracy_degradation" ≠ "low_confidence" := by decide
  have t6 : "model_drift" ≠ "low_confidence" := by decide
  refine ⟨?_, ?_, ?_, ?_⟩ <;>
    (try unfold check_quality_alerts) <;>
    (try unfold check_alerts) <;>
    split_ifs <;>
    simp_all [List.pairwise_cons, Prod.mk.injEq]

/-- C10: a non-TensorFlow model without `predict_proba` gets every prediction
confidence defaulted to exactly 0.5, so for a non-empty prediction batch the
confidence mean is exactly 0.5, and since 0.5 < 0.7 a `low_confidence` warning
alert is produced on every evaluation of such a model. -/
theorem default_confidence_low_confidence_alert
    (model_type : String) (y_pred_proba : List (List ℚ)) (n : ℕ)
    (hmt : model_type ≠ "tensorflow") (hn : 0 < n) :
    confidence_scores model_type false y_pred_proba n = List.replicate n (1 / 2)
    ∧ meanQ (confidence_scores model_type false y_pred_proba n) = 1 / 2
    ∧ ∀ (m : ModelMetrics) (ath dth : ℚ), m.confidence_mean = 1 / 2 →
        ∃ a ∈ check_alerts m ath dth,
          a.type = "low_confidence" ∧ a.severity = "warning"
          ∧ a.current_value = 1 / 2 := by
  have hcs : confidence_scores model_type false y_pred_proba n
      = List.replicate n (1 / 2) := by
    simp [confidence_scores, hmt]
  have hn' : (n : ℚ) ≠ 0 := Nat.cast_ne_zero.mpr hn.ne'
  refine ⟨hcs, ?_, ?_⟩
  · rw [hcs, meanQ, List.sum_replicate, List.length_replicate, nsmul_eq_mul]
    field_simp
    ring
  · intro m ath dth hc
    refine ⟨{ type := "low_confidence", severity := "warning",
              model_name := m.model_name, current_value := m.confidence_mean,
              threshold := 7 / 10 }, ?_, rfl, rfl, by rw [hc]⟩
    unfold check_alerts
    rw [if_pos (show m.confidence_mean < 7 / 10 by rw [hc]; norm_num)]
    simp

/-- C10 (witness): concrete application of
`default_confidence_low_confidence_alert` to a batch of one prediction of an
sklearn model without `predict_proba`. -/
theorem default_confidence_low_confidence_alert_witness :
    meanQ (confidence_scores "sklearn" false [] 1) = 1 / 2
    ∧ ∃ a ∈ check_alerts
        { model_name := "m", accuracy := 9 / 10, drift_score := 0,
          confidence_mean := 1 / 2 } (17 / 20) (1 / 20),
        a.type = "low_confidence" ∧ a.severity = "warning"
        ∧ a.current_value = 1 / 2 := by
  have h := default_confidence_low_confidence_alert "sklearn" [] 1
    (by decide) (by decide)
  exact ⟨h.2.1, h.2.2 _ (17 / 20) (1 / 20) rfl⟩

/-- C1 (counterexample): for a rule set whose only rule is the required column
`a` and a two-row sample where `a` is half null, the code's overall score
pools all six dimension scores — the five ruleless dimensions each defaulting
to 100 — giving `mean(50,100,100,100,100,100) = 275/3 ≈ 91.7`, while the
claimed aggregate (mean over dimensions with at least one applicable rule
only) is 50; the two disagree. -/
theorem overall_score_ruleless_exclusion_cex :
    assess_source_overall 0 { required_columns := ["a"] } [] (fun _ => none)
        [⟨2, [("a", [some 1, none])]⟩] = 275 / 3
    ∧ overallScore_specC1 0 ⟨2, [("a", [some 1, none])]⟩
        { required_columns := ["a"] } [] (fun _ => none) = 50
    ∧ (275 / 3 : ℚ) ≠ 50 := by
  refine ⟨?_, ?_, by norm_num⟩
  · norm_num [assess_source_overall, assessTable, assess_data_completeness,
      assess_data_accuracy, assess_data_consistency, assess_data_timeliness,
      assess_data_validity, assess_data_uniqueness, getColumn, hasColumn,
      nullCount, notNullCount, meanQ, lookupD, listMaxQ, sortQ, insertQ,
      diffsQ, rowKey, List.find?, beq_iff_eq, List.countP_cons,
      List.countP_nil, List.filter_cons, List.filter_nil, List.filterMap_cons,
      List.filterMap_nil, id_eq, decide_eq_true_eq, List.flatten_cons,
      List.flatten_nil]
  · norm_num [overallScore_specC1, assessTable, assess_data_completeness,
      assess_data_accuracy, assess_data_consistency, assess_data_timeliness,
      assess_data_validity, assess_data_uniqueness, getColumn, hasColumn,
      nullCount, notNullCount, meanQ, lookupD, listMaxQ, sortQ, insertQ,
      diffsQ, rowKey, List.find?, beq_iff_eq, List.countP_cons,
      List.countP_nil, List.filter_cons, List.filter_nil, List.filterMap_cons,
      List.filterMap_nil, id_eq, decide_eq_true_eq, List.zip_cons_cons]

/-- C1 (amended): for a non-empty table the overall score is the arithmetic
mean of all six dimension scores, and a dimension with zero configured rules
is not excluded — it contributes a defaulted score of exactly 100 to that
mean (each evaluator returns 100 when it collected no sub-score). -/
theorem overall_score_mean_of_all_six
    (now : ℚ) (cfg : QualityRules) (th : List (String × ℚ))
    (registry : String → Option (Df → List (String × ℚ) → ℚ)) (df : Df)
    (hrows : 0 < df.nrows) :
    assess_source_overall now cfg th registry [df]
      = meanQ (assessTable now df cfg th registry).1
    ∧ (cfg.required_columns = [] → (assess_data_completeness df cfg th).1 = 100)
    ∧ (cfg.validation_rules = [] → (assess_data_accuracy df cfg).1 = 100)
    ∧ (cfg.consistency_rules = [] → cfg.format_consistency = [] →
        (assess_data_consistency df cfg).1 = 100)
    ∧ (cfg.timeliness_rules.timestamp_column = none →
        (assess_data_timeliness now df cfg).1 = 100)
    ∧ (cfg.validity_rules = [] →
        (assess_data_validity df cfg registry).1 = 100)
    ∧ (cfg.uniqueness_rules.primary_keys = [] →
        cfg.uniqueness_rules.unique_columns = [] →
        (assess_data_uniqueness df cfg).1 = 100) := by
  refine ⟨?_, ?_, ?_, ?_, ?_, ?_, ?_⟩
  · simp [assess_source_overall, assessTable, hrows, decide_eq_true_eq,
      List.filter_cons, List.filter_nil, List.flatten_cons, List.flatten_nil]
  · intro h
    simp [assess_data_completeness, h]
  · intro h
    simp [assess_data_accuracy, h]
  · intro h1 h2
    simp [assess_data_consistency, h1, h2]
  · intro h
    simp [assess_data_timeliness, h]
  · intro h
    simp [assess_data_validity, h]
  · intro h1 h2
    simp [assess_data_uniqueness, h1, h2]

/-- C1 (witness): concrete application of `overall_score_mean_of_all_six` to
the two-row sample with only a required-column rule: the overall score is the
mean of the six pooled dimension scores, and the ruleless accuracy dimension
scores 100. -/
theorem overall_score_mean_of_all_six_witness :
    assess_source_overall 0 { required_columns := ["a"] } [] (fun _ => none)
        [⟨2, [("a", [some 1, none])]⟩]
      = meanQ (assessTable 0 ⟨2, [("a", [some 1, none])]⟩
          { required_columns := ["a"] } [] (fun _ => none)).1
    ∧ (assess_data_accuracy ⟨2, [("a", [some 1, none])]⟩
        { required_columns := ["a"] }).1 = 100 :=
  ⟨(overall_score_mean_of_all_six 0 { required_columns := ["a"] } []
      (fun _ => none) ⟨2, [("a", [some 1, none])]⟩ (by decide)).1,
   (overall_score_mean_of_all_six 0 { required_columns := ["a"] } []
      (fun _ => none) ⟨2, [("a", [some 1, none])]⟩ (by decide)).2.2.1 rfl⟩
